import Mathlib

/-!
Verification of the date arithmetic, platform detection and export flow of
the chinese-new-year countdown widget (src/src/App.tsx and its unnamed
variant, which share all of the logic modelled here).

Modelling conventions:
- A JavaScript Date built as new Date(y, mIdx, d) denotes local midnight of
  the calendar day (y, mIdx + 1, d).  We represent calendar days by the
  structure CalDay with a 1-based month, so the source expression
  new Date(y, m - 1, d) corresponds to the triple (y, m, d).
- dayNumber maps a calendar day to its serial number (days since
  1970-01-01) in the proleptic Gregorian calendar, exactly the day count
  ECMAScript uses for local dates.  The algorithm is the standard
  days-from-civil computation with floor division; it also agrees with the
  ECMAScript normalisation of an out-of-range day or month field, because
  it is affine in the day field and periodic in the month field.
- The local time zone is modelled as a function tz : CalDay -> Int giving
  the UTC offset in milliseconds in effect at local midnight of each
  calendar day.  Then getTime() of local midnight of day c is
  dayNumber c * msPerDay - tz c.  Daylight-saving time makes tz
  non-constant; in every real zone the offsets stay within a window far
  smaller than half a day, and local midnights occur in calendar-day
  order.  Theorems take exactly the hypothesis they need about tz.
- Math.round(x) rounds half toward positive infinity; on the exact
  rational n / den (den > 0) this is floor((2n + den) / (2 * den)), which
  jsRound computes.  All millisecond values involved are far below 2^53,
  so the double-precision evaluation in the source is exact for the
  whole-day differences the specification talks about.
-/

/-- Milliseconds per day, the msPerDay constant of daysBetween. -/
def msPerDay : Int := 86400000

/-- A calendar day: year, 1-based month, day of month (no time of day). -/
structure CalDay where
  year : Int
  month : Int
  day : Int
deriving DecidableEq

/-- Serial day number (days since 1970-01-01) of a proleptic-Gregorian
calendar date, by the standard days-from-civil algorithm with floor
division.  This is the day count underlying ECMAScript local dates. -/
def daysFromCivil (y m d : Int) : Int :=
  let yy := if m ≤ 2 then y - 1 else y
  let era := Int.fdiv yy 400
  let yoe := yy - era * 400
  let mp := Int.emod (m + 9) 12
  let doy := Int.fdiv (153 * mp + 2) 5 + d - 1
  let doe := yoe * 365 + Int.fdiv yoe 4 - Int.fdiv yoe 100 + doy
  era * 146097 + doe - 719468

/-- Serial day number of a calendar day. -/
def dayNumber (c : CalDay) : Int := daysFromCivil c.year c.month c.day

/-- getTime() of local midnight of day c, in a zone whose UTC offset in
milliseconds at that midnight is tz c: new Date(y, m - 1, d).getTime(). -/
def midnightMs (tz : CalDay → Int) (c : CalDay) : Int :=
  dayNumber c * msPerDay - tz c

/-- A time zone is order-faithful when comparing the getTime() values of
two local midnights agrees with comparing their calendar days.  Every real
zone satisfies this: local midnights happen in calendar order, and two
Date values denoting the same calendar day have the same getTime(). -/
def tzOrdered (tz : CalDay → Int) : Prop :=
  ∀ c d : CalDay, midnightMs tz c ≤ midnightMs tz d ↔ dayNumber c ≤ dayNumber d

/-- A JavaScript Date value in local representation: its calendar day
(the fields getFullYear / getMonth + 1 / getDate) and its time of day in
milliseconds past local midnight. -/
structure DateTime where
  cal : CalDay
  todMs : Int

/-- Math.round(num / den) for den > 0, evaluated exactly:
floor(num / den + 1 / 2), with Lean integer division (floor division). -/
def jsRound (num den : Int) : Int := (2 * num + den) / (2 * den)

/-- daysBetween from App.tsx: truncate both dates to their calendar days,
subtract the getTime() values of the two local midnights and round the
quotient by msPerDay. -/
def daysBetween (tz : CalDay → Int) (a b : DateTime) : Int :=
  let aDay := a.cal
  let bDay := b.cal
  jsRound (midnightMs tz bDay - midnightMs tz aDay) msPerDay

/-- The CNY_DATES table of App.tsx: (year, month, day) triples. -/
def CNY_DATES : List (Int × Int × Int) :=
  [(2025, 1, 29), (2026, 2, 17), (2027, 2, 6), (2028, 1, 26),
   (2029, 2, 13), (2030, 2, 3), (2031, 1, 23), (2032, 2, 11),
   (2033, 1, 31), (2034, 2, 19), (2035, 2, 8), (2036, 1, 28)]

/-- The calendar day denoted by a table entry: new Date(y, m - 1, d). -/
def entryDate (e : Int × Int × Int) : CalDay := ⟨e.1, e.2.1, e.2.2⟩

/-- getNextCNY from App.tsx, as a function of the truncated current day
(the source reads the clock and truncates; we pass the truncated day).
It scans CNY_DATES in order and returns the first entry whose local
midnight compares greater than or equal to the local midnight of today;
if none does, it falls back to the last entry plus one year. -/
def getNextCNY (tz : CalDay → Int) (today : CalDay) : CalDay :=
  match CNY_DATES.find?
      (fun e => decide (midnightMs tz (entryDate e) ≥ midnightMs tz today)) with
  | some e => entryDate e
  | none =>
      let last := CNY_DATES.getLast (by decide)
      ⟨last.1 + 1, last.2.1, last.2.2⟩

/-- The daysLeft value computed at view initialisation:
daysBetween(today, getNextCNY()), both arguments being local midnights. -/
def daysLeft (tz : CalDay → Int) (today : CalDay) : Int :=
  daysBetween tz ⟨today, 0⟩ ⟨getNextCNY tz today, 0⟩

/-- The specification wording of nextHoliday: the first table entry whose
calendar day is greater than or equal to today, by calendar-day
comparison; past the whole table, one year after the last entry with the
same month and day. -/
def nextHolidaySpec (today : CalDay) : CalDay :=
  match CNY_DATES.find?
      (fun e => decide (dayNumber (entryDate e) ≥ dayNumber today)) with
  | some e => entryDate e
  | none => ⟨2037, 1, 28⟩

-- Helper lemmas on rounding.

/-- Rounding a whole number of days perturbed by less than half a day
returns that number of days. -/
lemma jsRound_whole (del o : Int) (h1 : -43200000 < o) (h2 : o < 43200000) :
    jsRound (del * msPerDay - o) msPerDay = del := by
  show (2 * (del * msPerDay - o) + msPerDay) / (2 * msPerDay) = del
  have h : 2 * (del * msPerDay - o) + msPerDay
      = 172800000 * del + (86400000 - 2 * o) := by
    show 2 * (del * 86400000 - o) + 86400000 = _
    ring
  rw [h, msPerDay]
  omega

/-- Rounding a nonnegative millisecond difference gives a nonnegative
day count. -/
lemma jsRound_nonneg (n : Int) (h : 0 ≤ n) : 0 ≤ jsRound n msPerDay := by
  show 0 ≤ (2 * n + msPerDay) / (2 * msPerDay)
  rw [msPerDay]
  omega

/-- The core daysBetween computation: whenever the two offsets differ by
less than half a day (true of any real zone, where even a
daylight-saving jump moves the offset by at most a few hours), the result
is the exact difference of serial day numbers. -/
lemma daysBetween_eq_dayNumber_sub (tz : CalDay → Int) (a b : DateTime)
    (h1 : -43200000 < tz b.cal - tz a.cal)
    (h2 : tz b.cal - tz a.cal < 43200000) :
    daysBetween tz a b = dayNumber b.cal - dayNumber a.cal := by
  show jsRound (midnightMs tz b.cal - midnightMs tz a.cal) msPerDay = _
  have h : midnightMs tz b.cal - midnightMs tz a.cal
      = (dayNumber b.cal - dayNumber a.cal) * msPerDay
        - (tz b.cal - tz a.cal) := by
    show dayNumber b.cal * msPerDay - tz b.cal
        - (dayNumber a.cal * msPerDay - tz a.cal) = _
    ring
  rw [h]
  exact jsRound_whole _ _ h1 h2

/-- The constant zone with offset zero is order-faithful. -/
lemma tzOrdered_zero : tzOrdered (fun _ => 0) := by
  intro c d
  show dayNumber c * msPerDay - 0 ≤ dayNumber d * msPerDay - 0 ↔ _
  rw [msPerDay]
  omega

/-- C3: daysBetween truncates both dates to local midnight and rounds the
millisecond difference by msPerDay; whenever the two UTC offsets differ by
less than half a day (every real zone, daylight-saving transitions
included), the result is exactly the signed count of calendar days from
the day of a to the day of b, independent of the times of day. -/
theorem daysBetween_exact (tz : CalDay → Int) (a b : DateTime)
    (h1 : -43200000 < tz b.cal - tz a.cal)
    (h2 : tz b.cal - tz a.cal < 43200000) :
    daysBetween tz a b = dayNumber b.cal - dayNumber a.cal :=
  daysBetween_eq_dayNumber_sub tz a b h1 h2

/-- Witness for C3: in the zone with offset zero, from 2025-01-01 to
2025-01-29 (taken at 01:00) daysBetween returns 28. -/
theorem daysBetween_exact_witness :
    (-43200000 < (fun _ : CalDay => (0 : Int)) ⟨2025, 1, 29⟩
        - (fun _ : CalDay => (0 : Int)) ⟨2025, 1, 1⟩) ∧
    ((fun _ : CalDay => (0 : Int)) ⟨2025, 1, 29⟩
        - (fun _ : CalDay => (0 : Int)) ⟨2025, 1, 1⟩ < 43200000) ∧
    daysBetween (fun _ => 0) ⟨⟨2025, 1, 1⟩, 0⟩ ⟨⟨2025, 1, 29⟩, 3600000⟩ = 28 :=
  ⟨by decide, by decide,
    (daysBetween_exact (fun _ => 0) ⟨⟨2025, 1, 1⟩, 0⟩ ⟨⟨2025, 1, 29⟩, 3600000⟩
      (by decide) (by decide)).trans (by decide)⟩

/-- C8: daysBetween returns 0 whenever the two arguments fall on the same
calendar day, regardless of their times of day; in particular
daysBetween a a = 0. -/
theorem daysBetween_same_day (tz : CalDay → Int) (a b : DateTime)
    (h : a.cal = b.cal) : daysBetween tz a b = 0 := by
  show jsRound (midnightMs tz b.cal - midnightMs tz a.cal) msPerDay = 0
  rw [h, sub_self]
  decide

/-- Witness for C8: two times of day on 2025-01-29 are 0 days apart. -/
theorem daysBetween_same_day_witness :
    daysBetween (fun _ => 0) ⟨⟨2025, 1, 29⟩, 0⟩ ⟨⟨2025, 1, 29⟩, 7200000⟩ = 0 :=
  daysBetween_same_day (fun _ => 0) _ _ rfl

/-- C9: daysBetween is antisymmetric under swapping its arguments,
whenever the two UTC offsets differ by less than half a day (every real
zone). -/
theorem daysBetween_antisymm (tz : CalDay → Int) (a b : DateTime)
    (h1 : -43200000 < tz b.cal - tz a.cal)
    (h2 : tz b.cal - tz a.cal < 43200000) :
    daysBetween tz a b = -daysBetween tz b a := by
  rw [daysBetween_eq_dayNumber_sub tz a b h1 h2,
    daysBetween_eq_dayNumber_sub tz b a (by omega) (by omega)]
  ring

/-- Witness for C9: antisymmetry at 2025-01-01 and 2025-01-29. -/
theorem daysBetween_antisymm_witness :
    (-43200000 < (fun _ : CalDay => (0 : Int)) ⟨2025, 1, 29⟩
        - (fun _ : CalDay => (0 : Int)) ⟨2025, 1, 1⟩) ∧
    daysBetween (fun _ => 0) ⟨⟨2025, 1, 1⟩, 0⟩ ⟨⟨2025, 1, 29⟩, 0⟩
      = -daysBetween (fun _ => 0) ⟨⟨2025, 1, 29⟩, 0⟩ ⟨⟨2025, 1, 1⟩, 0⟩ :=
  ⟨by decide,
    daysBetween_antisymm (fun _ => 0) ⟨⟨2025, 1, 1⟩, 0⟩ ⟨⟨2025, 1, 29⟩, 0⟩
      (by decide) (by decide)⟩

/-- C10: day counts chain additively, daysBetween a c =
daysBetween a b + daysBetween b c, whenever each pair of the three UTC
offsets differs by less than half a day (every real zone), even though
each call rounds independently. -/
theorem daysBetween_additive (tz : CalDay → Int) (a b c : DateTime)
    (hab1 : -43200000 < tz b.cal - tz a.cal)
    (hab2 : tz b.cal - tz a.cal < 43200000)
    (hbc1 : -43200000 < tz c.cal - tz b.cal)
    (hbc2 : tz c.cal - tz b.cal < 43200000)
    (hac1 : -43200000 < tz c.cal - tz a.cal)
    (hac2 : tz c.cal - tz a.cal < 43200000) :
    daysBetween tz a c = daysBetween tz a b + daysBetween tz b c := by
  rw [daysBetween_eq_dayNumber_sub tz a c hac1 hac2,
    daysBetween_eq_dayNumber_sub tz a b hab1 hab2,
    daysBetween_eq_dayNumber_sub tz b c hbc1 hbc2]
  ring

/-- Witness for C10: chaining through 2025-01-10. -/
theorem daysBetween_additive_witness :
    (-43200000 < (0 : Int) - 0 ∧ (0 : Int) - 0 < 43200000) ∧
    daysBetween (fun _ => 0) ⟨⟨2025, 1, 1⟩, 0⟩ ⟨⟨2025, 1, 29⟩, 0⟩
      = daysBetween (fun _ => 0) ⟨⟨2025, 1, 1⟩, 0⟩ ⟨⟨2025, 1, 10⟩, 0⟩
        + daysBetween (fun _ => 0) ⟨⟨2025, 1, 10⟩, 0⟩ ⟨⟨2025, 1, 29⟩, 0⟩ :=
  ⟨⟨by decide, by decide⟩,
    daysBetween_additive (fun _ => 0) ⟨⟨2025, 1, 1⟩, 0⟩ ⟨⟨2025, 1, 10⟩, 0⟩
      ⟨⟨2025, 1, 29⟩, 0⟩ (by decide) (by decide) (by decide) (by decide)
      (by decide) (by decide)⟩

-- The next-holiday scan.

/-- Two pointwise-equal predicates find the same first element. -/
lemma find?_congrPred {α : Type} (l : List α) (p q : α → Bool)
    (h : ∀ a, p a = q a) : l.find? p = l.find? q := by
  have hpq : p = q := funext h
  rw [hpq]

/-- In an order-faithful zone, the millisecond comparison performed by
getNextCNY agrees with calendar-day comparison, so the scan returns
exactly the first table entry at or after today, with the same fallback.
This identifies the implementation with the specification wording. -/
lemma getNextCNY_eq_spec (tz : CalDay → Int) (htz : tzOrdered tz)
    (today : CalDay) : getNextCNY tz today = nextHolidaySpec today := by
  have hp : ∀ e : Int × Int × Int,
      decide (midnightMs tz (entryDate e) ≥ midnightMs tz today)
        = decide (dayNumber (entryDate e) ≥ dayNumber today) := by
    intro e
    apply decide_eq_decide.mpr
    rw [ge_iff_le, ge_iff_le]
    exact htz today (entryDate e)
  unfold getNextCNY nextHolidaySpec
  rw [find?_congrPred CNY_DATES _ _ hp]
  cases CNY_DATES.find?
      (fun e => decide (dayNumber (entryDate e) ≥ dayNumber today)) with
  | some e => rfl
  | none => rfl

/-- C1: in any order-faithful zone, getNextCNY returns the first table
entry whose calendar day is at or after today (the specification scan,
ignoring time of day); for every day strictly before the first entry it
returns the first entry 2025-01-29, and for a day equal to a table entry
it returns that same entry. -/
theorem getNextCNY_spec (tz : CalDay → Int) (htz : tzOrdered tz)
    (today : CalDay) :
    getNextCNY tz today = nextHolidaySpec today ∧
    (dayNumber today < dayNumber ⟨2025, 1, 29⟩ →
      getNextCNY tz today = ⟨2025, 1, 29⟩) ∧
    (∀ e ∈ CNY_DATES, entryDate e = today → getNextCNY tz today = today) := by
  refine ⟨getNextCNY_eq_spec tz htz today, ?_, ?_⟩
  · intro h
    rw [getNextCNY_eq_spec tz htz today]
    have hd : (decide (dayNumber (entryDate (2025, 1, 29)) ≥ dayNumber today))
        = true := by
      apply decide_eq_true
      show dayNumber ⟨2025, 1, 29⟩ ≥ dayNumber today
      omega
    unfold nextHolidaySpec
    have hfirst : CNY_DATES.find?
        (fun e => decide (dayNumber (entryDate e) ≥ dayNumber today))
          = some (2025, 1, 29) := by
      simp only [CNY_DATES]
      exact List.find?_cons_of_pos _ hd
    rw [hfirst]
    rfl
  · intro e he heq
    rw [getNextCNY_eq_spec tz htz today, ← heq]
    fin_cases he <;> decide

/-- Witness for C1: in the zone with offset zero, from 2024-12-31 the
next holiday is 2025-01-29, and from the table day 2026-02-17 the scan
returns that same day. -/
theorem getNextCNY_spec_witness :
    getNextCNY (fun _ => 0) ⟨2024, 12, 31⟩ = ⟨2025, 1, 29⟩ ∧
    getNextCNY (fun _ => 0) ⟨2026, 2, 17⟩ = ⟨2026, 2, 17⟩ :=
  ⟨(getNextCNY_spec (fun _ => 0) tzOrdered_zero ⟨2024, 12, 31⟩).2.1 (by decide),
   (getNextCNY_spec (fun _ => 0) tzOrdered_zero ⟨2026, 2, 17⟩).2.2
     (2026, 2, 17) (by decide) rfl⟩

/-- C2: in any order-faithful zone, for every day strictly after the last
table entry 2036-01-28 the scan finds no entry and getNextCNY returns the
fallback, one year after the last entry with the same month and day,
namely 2037-01-28.  The function is a total Lean definition, so it never
fails even though the table is exhausted. -/
theorem getNextCNY_fallback (tz : CalDay → Int) (htz : tzOrdered tz)
    (today : CalDay) (h : dayNumber ⟨2036, 1, 28⟩ < dayNumber today) :
    getNextCNY tz today = ⟨2036 + 1, 1, 28⟩ := by
  rw [getNextCNY_eq_spec tz htz today]
  have hall : ∀ x ∈ CNY_DATES,
      dayNumber (entryDate x) ≤ dayNumber ⟨2036, 1, 28⟩ := by decide
  have hn : CNY_DATES.find?
      (fun e => decide (dayNumber (entryDate e) ≥ dayNumber today)) = none := by
    rw [List.find?_eq_none]
    intro x hx
    have hb := hall x hx
    simp only [decide_eq_true_eq]
    omega
  unfold nextHolidaySpec
  rw [hn]
  decide

/-- Witness for C2: from 2036-06-01 the fallback 2037-01-28 is returned,
and the day count to it is 241. -/
theorem getNextCNY_fallback_witness :
    dayNumber ⟨2036, 1, 28⟩ < dayNumber ⟨2036, 6, 1⟩ ∧
    getNextCNY (fun _ => 0) ⟨2036, 6, 1⟩ = ⟨2036 + 1, 1, 28⟩ ∧
    daysLeft (fun _ => 0) ⟨2036, 6, 1⟩ = 241 :=
  ⟨by decide,
   getNextCNY_fallback (fun _ => 0) tzOrdered_zero ⟨2036, 6, 1⟩ (by decide),
   by decide⟩

/-- C4 counterexample: the computed day count is not always nonnegative.
For a clock reading 2038-01-01 the scan is exhausted, the fallback
2037-01-28 lies in the past, and daysLeft evaluates to -338 (zone with
offset zero). -/
theorem daysLeft_negative_cex : daysLeft (fun _ => 0) ⟨2038, 1, 1⟩ = -338 := by
  decide

/-- The holiday returned by getNextCNY is at or after today in
millisecond order, provided today is not past the fallback 2037-01-28. -/
lemma getNextCNY_midnight_ge (tz : CalDay → Int) (htz : tzOrdered tz)
    (today : CalDay) (h : dayNumber today ≤ dayNumber ⟨2037, 1, 28⟩) :
    midnightMs tz today ≤ midnightMs tz (getNextCNY tz today) := by
  unfold getNextCNY
  split
  · next e hf =>
      have hp := List.find?_some hf
      simp only [decide_eq_true_eq] at hp
      exact hp
  · next hf =>
      show midnightMs tz today ≤ midnightMs tz ⟨2036 + 1, 1, 28⟩
      apply (htz today ⟨2036 + 1, 1, 28⟩).mpr
      have he : dayNumber ⟨2036 + 1, 1, 28⟩ = dayNumber ⟨2037, 1, 28⟩ := by
        decide
      omega

/-- C4 amended: in any order-faithful zone, daysLeft is nonnegative for
every clock day up to and including the fallback date 2037-01-28; past
that day the fallback lies in the past and daysLeft is negative, as the
counterexample shows. -/
theorem daysLeft_nonneg (tz : CalDay → Int) (htz : tzOrdered tz)
    (today : CalDay) (h : dayNumber today ≤ dayNumber ⟨2037, 1, 28⟩) :
    0 ≤ daysLeft tz today := by
  have hkey := getNextCNY_midnight_ge tz htz today h
  show 0 ≤ jsRound (midnightMs tz (getNextCNY tz today) - midnightMs tz today)
      msPerDay
  exact jsRound_nonneg _ (by omega)

/-- Witness for C4 amended: from 2025-06-01 the day count is
nonnegative. -/
theorem daysLeft_nonneg_witness :
    dayNumber ⟨2025, 6, 1⟩ ≤ dayNumber ⟨2037, 1, 28⟩ ∧
    0 ≤ daysLeft (fun _ => 0) ⟨2025, 6, 1⟩ :=
  ⟨by decide,
   daysLeft_nonneg (fun _ => 0) tzOrdered_zero ⟨2025, 6, 1⟩ (by decide)⟩

-- Platform detection (isMobile, in the unnamed variant).

/-- Check whether the pattern is an initial segment of the text. -/
def matchesAt : List Char → List Char → Bool
  | [], _ => true
  | _ :: _, [] => false
  | p :: ps, c :: cs => (p == c) && matchesAt ps cs

/-- Check whether the pattern occurs contiguously somewhere in the text,
the way a regular expression of plain alternatives scans its input. -/
def containsSeq : List Char → List Char → Bool
  | [], pat => pat.isEmpty
  | s@(_ :: rest), pat => matchesAt pat s || containsSeq rest pat

/-- The alternatives of the mobile user-agent regular expression. -/
def mobileSubstrings : List String :=
  ["Android", "iPhone", "iPad", "iPod", "webOS", "BlackBerry",
   "IEMobile", "Opera Mini"]

/-- Case folding of a character list, the model of the i flag of the
regular expression (all alternatives are ASCII). -/
def lowerChars (s : List Char) : List Char := s.map Char.toLower

/-- isMobile from the unnamed variant: the case-insensitive regular
expression test of the user-agent string against the fixed alternatives,
as a pure function of that string. -/
def isMobile (ua : String) : Bool :=
  mobileSubstrings.any
    (fun p => containsSeq (lowerChars ua.data) (lowerChars p.data))

/-- matchesAt recognises exactly the texts extending the pattern. -/
lemma matchesAt_iff (pat s : List Char) :
    matchesAt pat s = true ↔ ∃ r, s = pat ++ r := by
  induction pat generalizing s with
  | nil => simp [matchesAt]
  | cons p ps ih =>
      cases s with
      | nil => simp [matchesAt]
      | cons c cs =>
          simp only [matchesAt, Bool.and_eq_true, beq_iff_eq, ih,
            List.cons_append, List.cons.injEq]
          constructor
          · rintro ⟨hpc, r, hr⟩
            exact ⟨r, hpc.symm, hr⟩
          · rintro ⟨r, hpc, hr⟩
            exact ⟨hpc.symm, r, hr⟩

/-- containsSeq recognises exactly the texts with the pattern as a
contiguous segment. -/
lemma containsSeq_iff (s pat : List Char) :
    containsSeq s pat = true ↔ ∃ l r, s = l ++ pat ++ r := by
  induction s with
  | nil =>
      cases pat with
      | nil => simp [containsSeq]
      | cons p ps => simp [containsSeq]
  | cons c cs ih =>
      simp only [containsSeq, Bool.or_eq_true, matchesAt_iff, ih]
      constructor
      · rintro (⟨r, hr⟩ | ⟨l, r, hr⟩)
        · exact ⟨[], r, by simp [hr]⟩
        · exact ⟨c :: l, r, by simp [hr]⟩
      · rintro ⟨l, r, hr⟩
        cases l with
        | nil =>
            exact Or.inl ⟨r, by simpa using hr⟩
        | cons x xs =>
            simp only [List.cons_append, List.cons.injEq] at hr
            exact Or.inr ⟨xs, r, hr.2⟩

/-- An occurrence of the pattern survives any character map, in
particular case folding. -/
lemma containsSeq_map (f : Char → Char) (s pat : List Char)
    (h : containsSeq s pat = true) :
    containsSeq (s.map f) (pat.map f) = true := by
  rw [containsSeq_iff] at h ⊢
  obtain ⟨l, r, hr⟩ := h
  exact ⟨l.map f, r.map f, by simp [hr]⟩

/-- C7: isMobile is a pure case-insensitive substring match of the
user-agent string against the fixed alternatives: any string containing
iPhone yields true, and any string containing Macintosh but none of the
alternatives (case-insensitively) yields false. -/
theorem isMobile_spec (ua : String) :
    (containsSeq ua.data ("iPhone".data) = true → isMobile ua = true) ∧
    (containsSeq ua.data ("Macintosh".data) = true →
      (∀ p ∈ mobileSubstrings,
        containsSeq (lowerChars ua.data) (lowerChars p.data) = false) →
      isMobile ua = false) := by
  constructor
  · intro h
    have hocc := containsSeq_map Char.toLower ua.data ("iPhone".data) h
    apply List.any_eq_true.mpr
    exact ⟨"iPhone", by simp [mobileSubstrings], hocc⟩
  · intro _ hall
    apply List.any_eq_false.mpr
    intro p hp
    simp [hall p hp]

/-- Witness for C7: a user agent containing iPhone is mobile, the plain
Macintosh user agent is not. -/
theorem isMobile_spec_witness :
    isMobile "Mozilla (iPhone; CPU OS 17)" = true ∧
    isMobile "Mozilla (Macintosh; Intel)" = false :=
  ⟨(isMobile_spec "Mozilla (iPhone; CPU OS 17)").1 (by decide),
   (isMobile_spec "Mozilla (Macintosh; Intel)").2 (by decide) (by decide)⟩

-- Capture and export flow (captureCard, copyToClipboard, downloadImage).

/-- Outcome of the capture step: the card reference may be null (the
source returns null without throwing), the rendering promise may reject,
or a canvas is produced. -/
inductive CaptureOutcome
  | nullRef
  | renderFail
  | rendered
deriving DecidableEq

/-- A rendered canvas; its pixel content is irrelevant to the claims. -/
inductive Canvas
  | mk
deriving DecidableEq

/-- Outcome of canvas.toBlob: the callback may receive null or a blob. -/
inductive BlobOutcome
  | noBlob
  | someBlob
deriving DecidableEq

/-- Outcome of navigator.clipboard.write: granted or rejected. -/
inductive ClipboardOutcome
  | granted
  | denied
deriving DecidableEq

/-- Outcome of canvas.toDataURL: a url, or a thrown error (for example a
security error on a tainted canvas). -/
inductive DataUrlOutcome
  | urlOk
  | urlFail
deriving DecidableEq

/-- Environment of one copyToClipboard invocation. -/
structure CopyEnv where
  capture : CaptureOutcome
  toBlob : BlobOutcome
  clipboard : ClipboardOutcome
deriving DecidableEq

/-- Environment of one downloadImage invocation. -/
structure DownloadEnv where
  capture : CaptureOutcome
  toDataURL : DataUrlOutcome
deriving DecidableEq

/-- Observable effects of one export invocation: the toasts shown, the
number of clipboard writes and the number of triggered downloads. -/
structure Effects where
  toasts : List String
  clipboardWrites : Nat
  downloads : Nat
deriving DecidableEq

/-- The empty effect record: nothing shown, nothing written, nothing
downloaded. -/
def noEffects : Effects := ⟨[], 0, 0⟩

/-- Toast text for a failed copy. -/
def copyFailToast : String := "复制失败，请重试"

/-- Toast text for a successful copy. -/
def copySuccessToast : String := "已复制到剪贴板 ✅"

/-- Toast text for a failed save. -/
def saveFailToast : String := "保存失败，请重试"

/-- Toast text for a successful save. -/
def saveSuccessToast : String := "已保存图片 ✅"

/-- captureCard: returns null when the card reference is null, otherwise
propagates the rendering result, a rejection being an error. -/
def captureCard (o : CaptureOutcome) : Except Unit (Option Canvas) :=
  match o with
  | .nullRef => .ok none
  | .renderFail => .error ()
  | .rendered => .ok (some .mk)

/-- Body of copyToClipboard up to its outer catch: a null canvas or a
null blob returns silently; the clipboard write is wrapped in the inner
try, so its rejection becomes a failure toast rather than an error. -/
def copyBody (env : CopyEnv) : Except Unit Effects :=
  match captureCard env.capture with
  | .error e => .error e
  | .ok none => .ok noEffects
  | .ok (some _) =>
      match env.toBlob with
      | .noBlob => .ok noEffects
      | .someBlob =>
          match env.clipboard with
          | .granted => .ok ⟨[copySuccessToast], 1, 0⟩
          | .denied => .ok ⟨[copyFailToast], 0, 0⟩

/-- copyToClipboard: the body inside the outer try, whose catch converts
any error into the failure toast. -/
def copyToClipboard (env : CopyEnv) : Except Unit Effects :=
  match copyBody env with
  | .error _ => .ok ⟨[copyFailToast], 0, 0⟩
  | .ok e => .ok e

/-- Body of downloadImage up to its catch: a null canvas returns
silently; a throwing toDataURL is an error; otherwise the anchor is
clicked and the success toast shown. -/
def downloadBody (env : DownloadEnv) : Except Unit Effects :=
  match captureCard env.capture with
  | .error e => .error e
  | .ok none => .ok noEffects
  | .ok (some _) =>
      match env.toDataURL with
      | .urlFail => .error ()
      | .urlOk => .ok ⟨[saveSuccessToast], 0, 1⟩

/-- downloadImage: the body inside the try, whose catch converts any
error into the failure toast. -/
def downloadImage (env : DownloadEnv) : Except Unit Effects :=
  match downloadBody env with
  | .error _ => .ok ⟨[saveFailToast], 0, 0⟩
  | .ok e => .ok e

/-- C5 counterexample: a capture failure caused by a null card reference
completes silently.  copyToClipboard performs an early return with no
toast at all, so this failure path emits no failure notification. -/
theorem copy_nullRef_silent_cex :
    copyToClipboard ⟨.nullRef, .someBlob, .granted⟩ = .ok noEffects ∧
    noEffects.toasts = [] := by
  exact ⟨rfl, rfl⟩

/-- C5 amended: a rendering failure, a clipboard denial and a throwing
toDataURL each emit the generic failure toast, but the two null early
returns (null card reference, null blob from toBlob) complete silently
with no toast and no side effect. -/
theorem export_failure_toasts (cenv : CopyEnv) (denv : DownloadEnv) :
    (cenv.capture = .renderFail →
      copyToClipboard cenv = .ok ⟨[copyFailToast], 0, 0⟩) ∧
    (cenv.capture = .rendered → cenv.toBlob = .someBlob →
      cenv.clipboard = .denied →
      copyToClipboard cenv = .ok ⟨[copyFailToast], 0, 0⟩) ∧
    (cenv.capture = .nullRef → copyToClipboard cenv = .ok noEffects) ∧
    (cenv.capture = .rendered → cenv.toBlob = .noBlob →
      copyToClipboard cenv = .ok noEffects) ∧
    (denv.capture = .renderFail →
      downloadImage denv = .ok ⟨[saveFailToast], 0, 0⟩) ∧
    (denv.capture = .rendered → denv.toDataURL = .urlFail →
      downloadImage denv = .ok ⟨[saveFailToast], 0, 0⟩) ∧
    (denv.capture = .nullRef → downloadImage denv = .ok noEffects) := by
  obtain ⟨c1, c2, c3⟩ := cenv
  obtain ⟨d1, d2⟩ := denv
  cases c1 <;> cases c2 <;> cases c3 <;> cases d1 <;> cases d2 <;>
    simp [copyToClipboard, copyBody, downloadImage, downloadBody,
      captureCard, noEffects]

/-- Witness for C5 amended: a rendering failure toasts the copy failure
text, a clipboard denial toasts it too, and a null reference is silent. -/
theorem export_failure_toasts_witness :
    copyToClipboard ⟨.renderFail, .someBlob, .granted⟩
      = .ok ⟨[copyFailToast], 0, 0⟩ ∧
    copyToClipboard ⟨.rendered, .someBlob, .denied⟩
      = .ok ⟨[copyFailToast], 0, 0⟩ ∧
    downloadImage ⟨.rendered, .urlFail⟩ = .ok ⟨[saveFailToast], 0, 0⟩ ∧
    copyToClipboard ⟨.nullRef, .someBlob, .granted⟩ = .ok noEffects :=
  ⟨(export_failure_toasts ⟨.renderFail, .someBlob, .granted⟩
      ⟨.rendered, .urlFail⟩).1 rfl,
   (export_failure_toasts ⟨.rendered, .someBlob, .denied⟩
      ⟨.rendered, .urlFail⟩).2.1 rfl rfl rfl,
   (export_failure_toasts ⟨.rendered, .someBlob, .denied⟩
      ⟨.rendered, .urlFail⟩).2.2.2.2.2.1 rfl rfl,
   (export_failure_toasts ⟨.nullRef, .someBlob, .granted⟩
      ⟨.rendered, .urlFail⟩).2.2.1 rfl⟩

/-- C6: neither export operation ever propagates an error past its own
boundary (both always return ok), and when the capture fails because the
card reference is null the operation performs no clipboard write, no
download and shows no toast: the environment is unchanged. -/
theorem export_never_throws (cenv : CopyEnv) (denv : DownloadEnv) :
    (∃ e, copyToClipboard cenv = .ok e) ∧
    (∃ e, downloadImage denv = .ok e) ∧
    (cenv.capture = .nullRef → copyToClipboard cenv = .ok noEffects) ∧
    (denv.capture = .nullRef → downloadImage denv = .ok noEffects) := by
  obtain ⟨c1, c2, c3⟩ := cenv
  obtain ⟨d1, d2⟩ := denv
  cases c1 <;> cases c2 <;> cases c3 <;> cases d1 <;> cases d2 <;>
    simp [copyToClipboard, copyBody, downloadImage, downloadBody,
      captureCard, noEffects]

/-- Witness for C6: with a null card reference both operations return ok
with no effects at all. -/
theorem export_never_throws_witness :
    (∃ e, copyToClipboard ⟨.nullRef, .someBlob, .granted⟩ = .ok e) ∧
    copyToClipboard ⟨.nullRef, .someBlob, .granted⟩ = .ok noEffects ∧
    downloadImage ⟨.nullRef, .urlOk⟩ = .ok noEffects :=
  ⟨(export_never_throws ⟨.nullRef, .someBlob, .granted⟩
      ⟨.nullRef, .urlOk⟩).1,
   (export_never_throws ⟨.nullRef, .someBlob, .granted⟩
      ⟨.nullRef, .urlOk⟩).2.2.1 rfl,
   (export_never_throws ⟨.nullRef, .someBlob, .granted⟩
      ⟨.nullRef, .urlOk⟩).2.2.2 rfl⟩
